import Mathlib

/-!
Verification development for the Airtable → Shopify synchronization service.

The service consists of:
* `create_shopify_item.py` — the `POST /create-shopify-item` endpoint, which builds a
  product payload from an Airtable record and creates a Shopify product;
* `webhook_handlers.py` — the `POST /airtable-webhook` endpoint, which finds an existing
  variant by SKU and updates fields, stock, and regional market prices in place;
* `shopify_utils.py` — HTTP helper functions (numeric coercion, SKU lookup, inventory,
  price lists);
* `description_agent.py` — the copy-generation workflow (notes research with model
  fallback, HTML sanitization).

The embedding models Python values as `PyVal` (None / str / number), numbers as `Rat`
(the decimal-literal fragment of Python's `float`/`int` parsing; exponent notation,
`inf` and `nan` are outside the model), and each handler as a pure function of its
request together with an explicit environment record describing the outcomes of the
external HTTP calls.  Each handler also returns the list of external calls (`Effect`s)
it performed, in order, so that frame properties ("no downstream call happens") can be
stated.
-/

/-! ### Python value model -/

/-- A Python value as it appears in the webhook / Airtable JSON payloads:
`None`, a string, or a number (`int`/`float`, modelled as `Rat`). -/
inductive PyVal where
  | none
  | str (s : String)
  | num (q : Rat)
  deriving DecidableEq, Repr

/-- Python truthiness for the payload values: `None`, `""` and `0` are falsy. -/
def PyVal.truthy : PyVal → Bool
  | .none => false
  | .str s => s ≠ ""
  | .num q => q ≠ 0

/-- `dict.get(k)`: first binding of key `k`, if any. -/
def pyGet (m : List (String × PyVal)) (k : String) : Option PyVal :=
  (m.find? (fun p => p.1 = k)).map (fun p => p.2)

/-- `dict.get(k, d)`: the stored value (which may itself be `None`) or the default. -/
def pyGetD (m : List (String × PyVal)) (k : String) (d : PyVal) : PyVal :=
  match pyGet m k with
  | some v => v
  | Option.none => d

/-- `dict.get(k)` with the implicit `None` default. -/
def pyGetV (m : List (String × PyVal)) (k : String) : PyVal :=
  pyGetD m k .none

/-- Python `str(x)` for payload values.  Numeric rendering uses the embedding's `Rat`
notation; none of the proved properties depend on the rendering of numbers. -/
def pyStr : PyVal → String
  | .none => "None"
  | .str s => s
  | .num q => toString q

/-- `(x or "")` for a payload value followed by use as a string. -/
def pyOrEmptyStr (v : PyVal) : String :=
  if v.truthy then pyStr v else ""

/-- ASCII lower-casing of a string (Python `str.lower()` on the ASCII inputs used
by the handlers). -/
def lowerStr (s : String) : String :=
  ⟨s.data.map Char.toLower⟩

/-- Truthiness of an optional string (`if err:` on a value that is `None` or a string). -/
def optTruthy : Option String → Bool
  | some s => s ≠ ""
  | Option.none => false

/-- The characters Python's `str.strip()` and the regex class `\s` treat as whitespace. -/
def isPySpace (c : Char) : Bool :=
  c = ' ' || c = '\t' || c = '\n' || c = '\r' || c = '\x0b' || c = '\x0c'

/-- Python `str.strip()`: remove leading and trailing whitespace. -/
def pyStrip (s : String) : String :=
  ⟨(((s.data.dropWhile isPySpace).reverse.dropWhile isPySpace)).reverse⟩

/-! ### Numeric coercion (`_to_number` in both files)

Python string-to-number parsing is modelled on the decimal-literal fragment:
an optional sign followed by digits with an optional fractional part for `float`,
an optional sign followed by digits for `int`. -/

/-- Digits of a numeral, most significant first, to a natural number. -/
def digitsToNat (l : List Char) : Nat :=
  l.foldl (fun a c => a * 10 + (c.toNat - 48)) 0

/-- Split a leading run of decimal digits from the rest. -/
def spanDigits : List Char → List Char × List Char
  | [] => ([], [])
  | c :: rest =>
    if c.isDigit then
      let p := spanDigits rest
      (c :: p.1, p.2)
    else ([], c :: rest)

/-- Unsigned decimal `float` literal: `digits`, `digits.`, `digits.digits` or `.digits`. -/
def parseFloatCore (l : List Char) : Option Rat :=
  let p := spanDigits l
  match p.2 with
  | [] => if p.1.isEmpty then Option.none else some ((digitsToNat p.1 : Int) : Rat)
  | '.' :: fp =>
    if fp.all Char.isDigit && !(p.1.isEmpty && fp.isEmpty) then
      some ((digitsToNat p.1 : Rat) + (digitsToNat fp : Rat) / ((10 : Rat) ^ fp.length))
    else Option.none
  | _ => Option.none

/-- Python `float(s)` on an already-stripped string (decimal-literal fragment). -/
def parseFloatStr (s : String) : Option Rat :=
  match s.data with
  | '+' :: rest => parseFloatCore rest
  | '-' :: rest => (parseFloatCore rest).map (fun q => -q)
  | l => parseFloatCore l

/-- Python `int(s)` on an already-stripped string: optional sign then digits. -/
def parseIntStr (s : String) : Option Int :=
  match s.data with
  | '+' :: rest =>
    if !rest.isEmpty && rest.all Char.isDigit then some (digitsToNat rest) else Option.none
  | '-' :: rest =>
    if !rest.isEmpty && rest.all Char.isDigit then some (-(digitsToNat rest : Int))
    else Option.none
  | l => if !l.isEmpty && l.all Char.isDigit then some (digitsToNat l) else Option.none

namespace CSI

/-- `create_shopify_item._to_number`: `None` and blank strings coerce to `0`,
numbers pass through, anything `float()` rejects coerces to `0`. -/
def to_number (x : PyVal) : Rat :=
  match x with
  | .none => 0
  | .num q => q
  | .str s => if pyStrip s = "" then 0 else (parseFloatStr (pyStrip s)).getD 0

/-- The status decision on lines 292–293 of `create_shopify_item.py`:
`"active" if qty > 0 else "draft"`. -/
def product_status (qty : Rat) : String :=
  if qty > 0 then "active" else "draft"

end CSI

namespace SU

/-- `shopify_utils._to_number`: `None` and blank strings give `None` (absent),
numbers pass through, strings parse as `float` when they contain a `'.'` and as
`int` otherwise, with any parse failure giving `None`. -/
def to_number (x : PyVal) : Option Rat :=
  match x with
  | .none => Option.none
  | .num q => some q
  | .str s =>
    let t := pyStrip s
    if t = "" then Option.none
    else if t.contains '.' then parseFloatStr t
    else (parseIntStr t).map (fun n => (n : Rat))

end SU

/-! ### Copy-generation research stage (`description_agent.py`)

`_fetch_with_perplexity` returns `empty_result()` on any API / parse failure, so its
outcome for each model is modelled as an arbitrary `NotesResult`. -/

/-- The cleaned result of one research call: top/heart/base note lists plus sources. -/
structure NotesResult where
  top : List String
  heart : List String
  base : List String
  sources : List String
  deriving DecidableEq, Repr

/-- `description_agent.empty_result`. -/
def empty_result : NotesResult := ⟨[], [], [], []⟩

/-- `needle` occurs as a contiguous substring of `hay` (Python's `in` on strings). -/
def isPre : List Char → List Char → Bool
  | [], _ => true
  | _ :: _, [] => false
  | a :: as, b :: bs => a = b && isPre as bs

/-- Substring containment, scanning every start position. -/
def containsSub (hay needle : List Char) : Bool :=
  match hay with
  | [] => needle.isEmpty
  | _ :: t => isPre needle hay || containsSub t needle

/-- The reliable fragrance-database domains of `_has_reliable_sources`. -/
def reliable_domains : List String :=
  ["fragrantica.com", "parfumo.net", "basenotes.net", "theluxuryconcepts.com"]

/-- `description_agent._has_meaningful_notes`: at least 3 notes across the three tiers. -/
def has_meaningful_notes (r : NotesResult) : Bool :=
  decide (r.top.length + r.heart.length + r.base.length ≥ 3)

/-- `description_agent._has_reliable_sources`: some cited source contains one of the
reliable domains (case-insensitively). -/
def has_reliable_sources (r : NotesResult) : Bool :=
  r.sources.any (fun source =>
    reliable_domains.any (fun d => containsSub (lowerStr source).data d.data))

/-- `description_agent.fetch_notes_with_fallback`, as a function of whether the API key
is configured and of the (cleaned) results the two model variants would return. -/
def fetch_notes_with_fallback (apiKeyPresent : Bool) (sonar pro : NotesResult) :
    NotesResult :=
  if !apiKeyPresent then empty_result
  else if has_meaningful_notes sonar && has_reliable_sources sonar then sonar
  else if has_meaningful_notes pro && has_reliable_sources pro then pro
  else if has_meaningful_notes pro then pro
  else empty_result

/-! ### HTML sanitization (`description_agent._sanitize_html`)

The three regex passes of `_sanitize_html` are modelled directly on `List Char`:

1. `re.sub(r"(?i)<(script|style)[^>]*>.*?</\1>", "", t)` — each pattern piece is
   deterministic: `[^>]*>` runs to the first `'>'`, and the lazy `.*?` scans forward
   for the closing tag but cannot cross a newline (`.` does not match `'\n'`).
2. `re.sub(r"(?i)</?([a-z0-9]+)([^>]*)>", keep-if-allowed-else-drop, t)` — a
   left-to-right single pass over tag-shaped tokens.
3. `re.search(rf"(?i)<h2>\s*{name}\s*</h2>", t)` with the escaped name matched
   case-insensitively; on failure `"<h2>" + name + "</h2>\n"` is prepended.

The bounded-recursion functions take the string length as fuel; the stability
lemmas below show any fuel of at least the string length gives the same result. -/

/-- Case-insensitive character comparison (regex flag `(?i)`, ASCII inputs). -/
def ciEq (a b : Char) : Bool := a.toLower = b.toLower

/-- Match a literal pattern case-insensitively at the head, returning the rest. -/
def matchCI : List Char → List Char → Option (List Char)
  | [], s => some s
  | _ :: _, [] => Option.none
  | p :: ps, c :: cs => if ciEq p c then matchCI ps cs else Option.none

/-- `[^>]*>`: drop characters up to and including the first `'>'`. -/
def skipToGt : List Char → Option (List Char)
  | [] => Option.none
  | c :: rest => if c = '>' then some rest else skipToGt rest

/-- `[^>]*>` keeping the consumed text: returns (consumed incl. `'>'`, rest). -/
def skipToGtKeep : List Char → Option (List Char × List Char)
  | [] => Option.none
  | c :: rest =>
    if c = '>' then some (['>'], rest)
    else
      match skipToGtKeep rest with
      | some p => some (c :: p.1, p.2)
      | Option.none => Option.none

/-- Match an opening `<script`/`<style` (case-insensitive) followed by `[^>]*>`. -/
def tryOpen (opener : List Char) (s : List Char) : Option (List Char) :=
  match matchCI opener s with
  | some r => skipToGt r
  | Option.none => Option.none

/-- The lazy `.*?</tag>`: scan forward for the closing tag; `.` cannot cross `'\n'`,
so reaching a newline before the closing tag fails the whole match. -/
def findClose (close : List Char) : List Char → Option (List Char)
  | [] => Option.none
  | c :: rest =>
    match matchCI close (c :: rest) with
    | some r => some r
    | Option.none => if c = '\n' then Option.none else findClose close rest

/-- One attempt of regex pass 1 at the current position: a whole single-line
`<script…>…</script>` or `<style…>…</style>` block, returning the rest. -/
def tryBlockAt (s : List Char) : Option (List Char) :=
  match tryOpen "<script".data s with
  | some r => findClose "</script>".data r
  | Option.none =>
    match tryOpen "<style".data s with
    | some r => findClose "</style>".data r
    | Option.none => Option.none

/-- Regex pass 1 (`re.sub` with empty replacement), with fuel. -/
def removeBlocksF : Nat → List Char → List Char
  | 0, s => s
  | _ + 1, [] => []
  | fuel + 1, c :: rest =>
    match tryBlockAt (c :: rest) with
    | some r => removeBlocksF fuel r
    | Option.none => c :: removeBlocksF fuel rest

/-- Regex pass 1: remove every single-line script/style block, left to right. -/
def removeBlocks (s : List Char) : List Char := removeBlocksF s.length s

/-- The character class `[a-z0-9]` under `(?i)`. -/
def isTagChar (c : Char) : Bool :=
  (('a' ≤ c && c ≤ 'z') || ('A' ≤ c && c ≤ 'Z') || ('0' ≤ c && c ≤ '9'))

/-- Split a leading run of tag-name characters from the rest. -/
def spanTag : List Char → List Char × List Char
  | [] => ([], [])
  | c :: rest =>
    if isTagChar c then
      let p := spanTag rest
      (c :: p.1, p.2)
    else ([], c :: rest)

/-- Shared body of a tag-token match after `<` (and an optional `/`):
`([a-z0-9]+)([^>]*)>`, returning (tag name, whole matched text, rest). -/
def tryTagBody (pre : List Char) (r : List Char) :
    Option (List Char × List Char × List Char) :=
  let p := spanTag r
  if p.1.isEmpty then Option.none
  else
    match skipToGtKeep p.2 with
    | some q => some (p.1, pre ++ (p.1 ++ q.1), q.2)
    | Option.none => Option.none

/-- One attempt of regex pass 2 at the current position: `</?([a-z0-9]+)([^>]*)>`. -/
def tryTagAt : List Char → Option (List Char × List Char × List Char)
  | [] => Option.none
  | c :: r1 =>
    if c = '<' then
      match r1 with
      | [] => Option.none
      | d :: r2 => if d = '/' then tryTagBody ['<', '/'] r2 else tryTagBody ['<'] r1
    else Option.none

/-- `CONFIG["allowed_tags"]`. -/
def allowed_tags : List (List Char) :=
  ["h2".data, "h3".data, "p".data, "ul".data, "li".data, "strong".data, "a".data]

/-- Regex pass 2 (`re.sub` with `replace_disallowed`), with fuel: keep a matched tag
token whose lower-cased name is allow-listed, drop it otherwise, one pass. -/
def stripTagsF : Nat → List Char → List Char
  | 0, s => s
  | _ + 1, [] => []
  | fuel + 1, c :: rest =>
    match tryTagAt (c :: rest) with
    | some x =>
      if allowed_tags.contains (x.1.map Char.toLower) then x.2.1 ++ stripTagsF fuel x.2.2
      else stripTagsF fuel x.2.2
    | Option.none => c :: stripTagsF fuel rest

/-- Regex pass 2: strip every tag token outside the allow-list. -/
def stripTags (s : List Char) : List Char := stripTagsF s.length s

/-- `\s*` followed by a continuation: the continuation may start at any point of the
leading whitespace run (backtracking collapsed into a disjunction). -/
def wsThen (p : List Char → Bool) : List Char → Bool
  | [] => p []
  | c :: rest => p (c :: rest) || (isPySpace c && wsThen p rest)

/-- The literal `<h2>`. -/
def h2open : List Char := ['<', 'h', '2', '>']

/-- The literal `</h2>`. -/
def h2close : List Char := ['<', '/', 'h', '2', '>']

/-- Pass 3's pattern `(?i)<h2>\s*name\s*</h2>` anchored at the current position. -/
def matchH2At (name : List Char) (s : List Char) : Bool :=
  match matchCI h2open s with
  | Option.none => false
  | some r1 =>
    wsThen (fun r2 =>
      match matchCI name r2 with
      | Option.none => false
      | some r3 => wsThen (fun r4 => (matchCI h2close r4).isSome) r3) r1

/-- Pass 3's `re.search`: try the pattern at every position. -/
def searchH2 (name : List Char) : List Char → Bool
  | [] => matchH2At name []
  | c :: rest => matchH2At name (c :: rest) || searchH2 name rest

/-- `description_agent._sanitize_html` on character lists: strip single-line
script/style blocks, strip disallowed tag tokens, and prepend
`<h2>{name}</h2>\n` when the heading search fails. -/
def sanitizeL (htmlText name : List Char) : List Char :=
  let t2 := stripTags (removeBlocks htmlText)
  if searchH2 name t2 then t2
  else (h2open ++ name ++ h2close ++ ['\n']) ++ t2

/-- `description_agent._sanitize_html`. -/
def sanitize_html (htmlText name : String) : String :=
  ⟨sanitizeL htmlText.data name.data⟩

/-! ### Shared effect trace

Both HTTP handlers are modelled as pure functions that, besides their response,
return the ordered list of external calls they performed. -/

/-- The three hard-coded regional markets of the webhook handler. -/
inductive Market where
  | UAE
  | Asia
  | America
  deriving DecidableEq, Repr

/-- The Airtable field carrying each market's price (`webhook_handlers.py` 40–44). -/
def market_field : Market → String
  | .UAE => "UAE price"
  | .Asia => "Asia Price"
  | .America => "America Price"

/-- The hard-coded `PRICE_LIST_IDS` mapping (`webhook_handlers.py` 174–178). -/
def price_list_gid : Market → String
  | .UAE => "gid://shopify/PriceList/31168201019"
  | .Asia => "gid://shopify/PriceList/31168266555"
  | .America => "gid://shopify/PriceList/31168233787"

/-- An external call performed by one of the handlers. -/
inductive Effect where
  | findBySku (sku : PyVal)
  | updVariantDetails (variantGid : String) (title barcode : PyVal)
  | updProductTitle (productGid : String) (title : PyVal)
  | updDefaultPrice (variantNum : String) (price : Rat) (compareAt : Option Rat)
  | setMeta (ownerGid ns key value : String)
  | getLocation
  | setInventory (inventoryItemId : Int) (locationId : String) (qty : Rat)
  | priceListAdd (m : Market) (priceListId variantGid : String)
      (amount : Rat) (compareAt : Option Rat)
  | fetchLinkedImages
  | searchImages (productName : String)
  | createProduct (title : String) (sku : PyVal) (status : String)
  | getLocations
  | setInventoryLevel (qty : Int)
  | airtableUpdate (recordId : String) (shopifyId : Int)
  deriving DecidableEq, Repr

/-! ### SKU lookup (`shopify_utils.get_variant_product_and_inventory_by_sku`) -/

/-- The identifiers of an existing variant found by SKU. -/
structure LookupInfo where
  variantGid : String
  productGid : String
  variantNum : String
  inventoryItemId : Int
  deriving DecidableEq, Repr

/-- `s.split("/")[-1]`. -/
def lastSeg (s : String) : String :=
  ⟨(s.data.reverse.takeWhile (fun c => c ≠ '/')).reverse⟩

/-- Environment of the SKU lookup: the GraphQL `productVariants` nodes
(variant gid, product gid pairs) and the follow-up REST read of the variant's
`inventory_item_id`; either call may raise. -/
structure SkuLookupEnv where
  gqlNodes : Except String (List (String × String))
  restInventoryItem : Except String Int

/-- `get_variant_product_and_inventory_by_sku`: an empty node list returns the
all-`None` tuple (modelled `none`) without touching the REST endpoint; otherwise
the first node is combined with the REST `inventory_item_id`. -/
def get_variant_product_and_inventory_by_sku (env : SkuLookupEnv) :
    Except String (Option LookupInfo) :=
  match env.gqlNodes with
  | .error e => .error e
  | .ok [] => .ok Option.none
  | .ok ((vg, pg) :: _) =>
    match env.restInventoryItem with
    | .error e => .error e
    | .ok iid => .ok (some ⟨vg, pg, lastSeg vg, iid⟩)

/-! ### Webhook handler (`webhook_handlers.handle_airtable_webhook`) -/

/-- The parsed JSON of a `set_inventory_absolute` response, keeping the two keys
the handler inspects (`error`, `errors`). -/
structure InvJson where
  errField : Option String
  errsField : Option String
  deriving DecidableEq, Repr

/-- An opaque GraphQL JSON response as stored into `price_updates` (its content is
printed but never branched on). -/
structure GqlJson where
  raw : String
  deriving DecidableEq, Repr

/-- Outcomes of the external calls the webhook handler can make.  `Except.error`
models a raised exception (`raise_for_status` or any other). -/
structure WebhookEnv where
  lookup : Except String (Option LookupInfo)
  variantDetailsResp : Except String Unit
  productTitleResp : Except String Unit
  defaultPriceResp : Except String Unit
  metafieldResp : Except String Unit
  locationResp : Except String String
  inventoryResp : Except String (Option InvJson)
  priceResp : Market → Except String GqlJson

/-- A webhook request: the `X-Secret-Token` header and the flat JSON body. -/
structure WebhookInput where
  secretHeader : Option String
  body : List (String × PyVal)

/-- The 200 response body of the webhook handler. -/
structure WebhookOk where
  status : String
  variant_id : String
  product_id : String
  inventory_update : Option InvJson
  price_list_updates : List (Market × GqlJson)
  inventory_error : Option String
  deriving DecidableEq, Repr

/-- A webhook response (status code plus body shape). -/
inductive WebhookResp where
  | unauthorized
  | badRequest (msg : String)
  | notFound (msg : String)
  | ok (body : WebhookOk)
  | serverError (msg : String)
  deriving DecidableEq, Repr

/-- The fields parsed from the webhook body (`webhook_handlers.py` 39–49). -/
structure WhParsed where
  sku : PyVal
  title : PyVal
  barcode : PyVal
  sizeValue : PyVal
  uaeCompare : Option Rat
  qtyAbs : Option Rat
  priceUAE : Option Rat
  priceAsia : Option Rat
  priceAmerica : Option Rat

/-- Parse the webhook body. -/
def whParse (body : List (String × PyVal)) : WhParsed where
  sku := pyGetV body "SKU"
  title := pyGetV body "Title"
  barcode := pyGetV body "Barcode"
  sizeValue := pyGetV body "Size"
  uaeCompare := SU.to_number (pyGetV body "UAE Comparison Price")
  qtyAbs := SU.to_number (pyGetV body "Qty given in shopify")
  priceUAE := SU.to_number (pyGetV body "UAE price")
  priceAsia := SU.to_number (pyGetV body "Asia Price")
  priceAmerica := SU.to_number (pyGetV body "America Price")

/-- The `prices` dict by market. -/
def parsedPrice (p : WhParsed) : Market → Option Rat
  | .UAE => p.priceUAE
  | .Asia => p.priceAsia
  | .America => p.priceAmerica

/-- `size_value is not None and str(size_value).strip() != ""`. -/
def sizeProvided : PyVal → Bool
  | .none => false
  | .str s => pyStrip s ≠ ""
  | .num _ => true

/-- Sequence two abortable steps: on error the second step's calls never happen. -/
def andThen (a b : Except String Unit × List Effect) :
    Except String Unit × List Effect :=
  match a with
  | (.error e, tr) => (.error e, tr)
  | (.ok _, tr) => (b.1, tr ++ b.2)

/-- Step 2 of the webhook: `update_variant_details` when a title or barcode is
given, then `update_product_title` when a title is given; both raise on failure. -/
def whDetails (env : WebhookEnv) (info : LookupInfo) (p : WhParsed) :
    Except String Unit × List Effect :=
  let callDet := p.title.truthy || p.barcode.truthy
  let aDet : List Effect :=
    if callDet then [.updVariantDetails info.variantGid p.title p.barcode] else []
  match (if callDet then env.variantDetailsResp else .ok ()) with
  | .error e => (.error e, aDet)
  | .ok _ =>
    let aT : List Effect :=
      if p.title.truthy then [.updProductTitle info.productGid p.title] else []
    match (if p.title.truthy then env.productTitleResp else .ok ()) with
    | .error e => (.error e, aDet ++ aT)
    | .ok _ => (.ok (), aDet ++ aT)

/-- Step 3 of the webhook: `update_variant_default_price` when the UAE price is
present (the `compare_at_price` argument is always passed along). -/
def whDefaultPrice (env : WebhookEnv) (info : LookupInfo) (p : WhParsed) :
    Except String Unit × List Effect :=
  match p.priceUAE with
  | some pr =>
    match env.defaultPriceResp with
    | .error e => (.error e, [.updDefaultPrice info.variantNum pr p.uaeCompare])
    | .ok _ => (.ok (), [.updDefaultPrice info.variantNum pr p.uaeCompare])
  | Option.none => (.ok (), [])

/-- Step 4 of the webhook: the size metafield (the `shopify_utils.set_metafield`,
which raises on an HTTP error). -/
def whMeta (env : WebhookEnv) (info : LookupInfo) (p : WhParsed) :
    Except String Unit × List Effect :=
  if sizeProvided p.sizeValue then
    match env.metafieldResp with
    | .error e => (.error e, [.setMeta info.variantGid "custom" "size" (pyStr p.sizeValue)])
    | .ok _ => (.ok (), [.setMeta info.variantGid "custom" "size" (pyStr p.sizeValue)])
  else (.ok (), [])

/-- Webhook steps 2–4 in sequence, aborting on the first raised exception. -/
def whUpdates (env : WebhookEnv) (info : LookupInfo) (p : WhParsed) :
    Except String Unit × List Effect :=
  andThen (whDetails env info p) (andThen (whDefaultPrice env info p) (whMeta env info p))

/-- Step 5 of the webhook (`webhook_handlers.py` 121–167): when a quantity was
parsed, look up the primary location and set the absolute inventory level; every
failure mode is caught into `inventory_error` and the returned JSON is kept in
`inventory_update` even when it carries error keys. -/
def whInventory (env : WebhookEnv) (info : LookupInfo) (qtyAbs : Option Rat) :
    Option InvJson × Option String × List Effect :=
  match qtyAbs with
  | Option.none => (Option.none, Option.none, [])
  | some q =>
    match env.locationResp with
    | .error e => (Option.none, some e, [.getLocation])
    | .ok loc =>
      if loc = "" then (Option.none, some "Primary location ID not found", [.getLocation])
      else
        match env.inventoryResp with
        | .error e =>
          (Option.none, some e, [.getLocation, .setInventory info.inventoryItemId loc q])
        | .ok Option.none =>
          (Option.none, some "set_inventory_absolute returned None",
            [.getLocation, .setInventory info.inventoryItemId loc q])
        | .ok (some j) =>
          let errOpt :=
            if optTruthy j.errField then j.errField
            else if optTruthy j.errsField then j.errsField
            else Option.none
          (some j, errOpt, [.getLocation, .setInventory info.inventoryItemId loc q])

/-- The compare-at amount attached to a market's price-list write: only for UAE and
only when truthy (`if compare_amt:`). -/
def whCmp (p : WhParsed) (m : Market) : Option Rat :=
  if m = Market.UAE then
    match p.uaeCompare with
    | some c => if c = 0 then Option.none else some c
    | Option.none => Option.none
  else Option.none

/-- Step 6 of the webhook (`webhook_handlers.py` 180–232): iterate the markets in
dict order; skip absent prices; the compare-at price is attached only for UAE and
only when truthy; `shopify_graphql` raises on an HTTP error, which aborts the
remaining markets (and the whole request). -/
def whPrices (env : WebhookEnv) (variantGid : String) (p : WhParsed) :
    List Market → Except String (List (Market × GqlJson)) × List Effect
  | [] => (.ok [], [])
  | m :: ms =>
    match parsedPrice p m with
    | Option.none => whPrices env variantGid p ms
    | some amt =>
      let act := Effect.priceListAdd m (price_list_gid m) variantGid amt (whCmp p m)
      match env.priceResp m with
      | .error e => (.error e, [act])
      | .ok j =>
        match whPrices env variantGid p ms with
        | (.error e, tr) => (.error e, act :: tr)
        | (.ok rest, tr) => (.ok ((m, j) :: rest), act :: tr)

/-- `webhook_handlers.handle_airtable_webhook` as a function of the configured
secret, the request, and the outcomes of the external calls; returns the response
and the ordered list of external calls performed. -/
def handle_airtable_webhook (cfgSecret : String) (inp : WebhookInput)
    (env : WebhookEnv) : WebhookResp × List Effect :=
  if inp.secretHeader = some cfgSecret then
    let p := whParse inp.body
    if p.sku.truthy then
      match env.lookup with
      | .error e => (.serverError e, [.findBySku p.sku])
      | .ok Option.none =>
        (.notFound ("Variant with SKU " ++ pyStr p.sku ++ " not found"), [.findBySku p.sku])
      | .ok (some info) =>
        match whUpdates env info p with
        | (.error e, tr) => (.serverError e, .findBySku p.sku :: tr)
        | (.ok _, tr) =>
          let inv := whInventory env info p.qtyAbs
          match whPrices env info.variantGid p [Market.UAE, Market.Asia, Market.America] with
          | (.error e, trP) =>
            (.serverError e, .findBySku p.sku :: (tr ++ inv.2.2 ++ trP))
          | (.ok plu, trP) =>
            let body : WebhookOk :=
              { status := if optTruthy inv.2.1 then "partial_success" else "success"
                variant_id := info.variantGid
                product_id := info.productGid
                inventory_update := inv.1
                price_list_updates := plu
                inventory_error := if optTruthy inv.2.1 then inv.2.1 else Option.none }
            (.ok body, .findBySku p.sku :: (tr ++ inv.2.2 ++ trP))
    else (.badRequest "SKU missing", [])
  else (.unauthorized, [])

/-- Is this effect an inventory-level write? -/
def isSetInventory : Effect → Bool
  | .setInventory _ _ _ => true
  | _ => false

/-- Is this effect a product-creation call? -/
def isCreateProduct : Effect → Bool
  | .createProduct _ _ _ => true
  | _ => false

/-- Is this effect a price-list write for the given market? -/
def isPriceFor (m : Market) : Effect → Bool
  | .priceListAdd m2 _ _ _ _ => m2 == m
  | _ => false

/-- Effects that step 2–3 of the webhook (details/title) can emit. -/
def isDetailsEffect (info : LookupInfo) : Effect → Bool
  | .updVariantDetails g _ _ => g == info.variantGid
  | .updProductTitle g _ => g == info.productGid
  | _ => false

/-- Effects that the default-price step of the webhook can emit. -/
def isDefaultPriceEffect (info : LookupInfo) : Effect → Bool
  | .updDefaultPrice n _ _ => n == info.variantNum
  | _ => false

/-- Effects that the size-metafield step of the webhook can emit. -/
def isMetaEffect (info : LookupInfo) : Effect → Bool
  | .setMeta g _ _ _ => g == info.variantGid
  | _ => false

/-- Effects that webhook steps 2–4 can emit. -/
def isUpdatesEffect (info : LookupInfo) (a : Effect) : Bool :=
  isDetailsEffect info a || isDefaultPriceEffect info a || isMetaEffect info a

/-- Effects that the webhook inventory step can emit. -/
def isInventoryEffect (info : LookupInfo) : Effect → Bool
  | .getLocation => true
  | .setInventory iid _ _ => iid == info.inventoryItemId
  | _ => false

/-- Effects that the webhook price-list step can emit. -/
def isPriceEffect (vg : String) : Effect → Bool
  | .priceListAdd _ _ g _ _ => g == vg
  | _ => false

/-- Every mutation of the webhook handler targets the variant/product/inventory
item returned by the SKU lookup (reads and the lookup itself count as targeted). -/
def targetsLookup (info : LookupInfo) : Effect → Bool
  | .findBySku _ => true
  | .updVariantDetails g _ _ => g == info.variantGid
  | .updProductTitle g _ => g == info.productGid
  | .updDefaultPrice n _ _ => n == info.variantNum
  | .setMeta g _ _ _ => g == info.variantGid
  | .getLocation => true
  | .setInventory iid _ _ => iid == info.inventoryItemId
  | .priceListAdd _ _ g _ _ => g == info.variantGid
  | _ => false

/-! ### Create endpoint (`create_shopify_item.create_shopify_item`) -/

/-- Python `int(q)` on a float: truncation toward zero. -/
def pyInt (q : Rat) : Int :=
  if 0 ≤ q then q.floor else -((-q).floor)

/-- The ids extracted from a 201 product-creation response:
`product.get("id")`, first variant's `id` and `inventory_item_id`. -/
structure CreateOkIds where
  shopify_id : Option Int
  variant_id : Option Int
  inventory_item_id : Option Int
  deriving DecidableEq, Repr

/-- `not all([shopify_product_id, variant_id, inventory_item_id])` in reverse:
every id present and truthy (nonzero). -/
def truthyIdOpt : Option Int → Bool
  | some n => n ≠ 0
  | Option.none => false

/-- All three ids of the creation response are present and truthy. -/
def idsComplete (ids : CreateOkIds) : Bool :=
  truthyIdOpt ids.shopify_id && truthyIdOpt ids.variant_id
    && truthyIdOpt ids.inventory_item_id

/-- The 201 response body of the create endpoint (`create_shopify_item.py`
420–428): plain success fields only — no step-failure information of any kind. -/
structure CreateOkBody where
  success : Bool
  shopify_id : Int
  variant_id : Int
  product_title : String
  images_used : Nat
  inventory_set : Rat
  status : String
  deriving DecidableEq, Repr

/-- A create-endpoint response. -/
inductive CreateResp where
  | badRequest (msg : String)
  | upstream (code : Nat) (details : String)
  | incomplete
  | created (body : CreateOkBody)
  | serverError (msg : String)
  deriving DecidableEq, Repr

/-- Outcomes of the external calls the create endpoint can make.  The results of
the inventory set (`inv_result`), the metafield writes, and the Airtable
write-back are caught/discarded by the source, so `invSetResp` and
`airtableResp` cannot influence the returned response. -/
structure CreateEnv where
  envOk : Bool
  linkedImages : List String
  searchResult : Option (List String)
  createResp : Except (Nat × String) CreateOkIds
  locationsResp : Except String (List Int)
  invSetResp : Except String Unit
  airtableConfigured : Bool
  airtableResp : Except String Unit

/-- A create-endpoint request: `record_id` and the Airtable `fields` map. -/
structure CreateInput where
  record_id : PyVal
  fields : List (String × PyVal)

/-- `create_shopify_item.create_shopify_item` as a function of the request and the
outcomes of the external calls; returns the response and the ordered list of
external calls performed.  It performs no SKU lookup of any kind, and after a
successful product creation it always returns the plain-success 201 body,
whatever the later steps' outcomes. -/
def create_shopify_item (inp : CreateInput) (env : CreateEnv) :
    CreateResp × List Effect :=
  if env.envOk then
    if inp.record_id.truthy && !inp.fields.isEmpty then
      let record := inp.fields
      let missing := ["Product Name", "SKU"].filter (fun f => !(pyGetV record f).truthy)
      if missing.isEmpty then
        let qty := CSI.to_number (pyGetD record "Qty given in shopify" (.num 0))
        let status := CSI.product_status qty
        let title := pyStrip (pyStr (pyGetD record "Product Name" (.str "")))
        let image_urls := if !env.linkedImages.isEmpty then env.linkedImages
          else env.searchResult.getD []
        let tCreate : List Effect :=
          [.fetchLinkedImages]
          ++ (if env.linkedImages.isEmpty then
              [.searchImages (pyStr (pyGetD record "Product Name" (.str "")))] else [])
          ++ [.createProduct title (pyGetV record "SKU") status]
        match env.createResp with
        | .error pr => (.upstream pr.1 pr.2, tCreate)
        | .ok ids =>
          if idsComplete ids then
            let sid := ids.shopify_id.getD 0
            let vid := ids.variant_id.getD 0
            let tInv : List Effect :=
              match env.locationsResp with
              | .error _ => [.getLocations]
              | .ok [] => [.getLocations]
              | .ok (_ :: _) => [.getLocations, .setInventoryLevel (pyInt qty)]
            let pgid := "gid://shopify/Product/" ++ toString sid
            let vgid := "gid://shopify/ProductVariant/" ++ toString vid
            let g0 := lowerStr (pyStrip (pyOrEmptyStr (pyGetV record "Category")))
            let gender := if g0 = "male" || g0 = "female" || g0 = "unisex" then g0
              else "unisex"
            let tMeta : List Effect := [
              .setMeta pgid "custom" "size" (pyStr (pyGetD record "Size" (.str ""))),
              .setMeta pgid "custom" "brands" (pyStr (pyGetD record "Brand" (.str ""))),
              .setMeta vgid "google_shopping" "age_group" "adult",
              .setMeta vgid "google_shopping" "condition" "new",
              .setMeta vgid "google_shopping" "gender" gender,
              .setMeta vgid "google_shopping" "mpn" (pyStr (pyGetD record "SKU" (.str "")))]
            let tAir : List Effect :=
              if env.airtableConfigured then [.airtableUpdate (pyStr inp.record_id) sid]
              else []
            (.created
              { success := true
                shopify_id := sid
                variant_id := vid
                product_title := title
                images_used := image_urls.length
                inventory_set := qty
                status := status },
              tCreate ++ tInv ++ tMeta ++ tAir)
          else (.incomplete, tCreate)
      else (.badRequest ("Missing required fields: " ++ String.intercalate ", " missing), [])
    else (.badRequest "Missing record_id or fields", [])
  else (.serverError "Unexpected error: missing environment variables", [])

/-- Is this effect the SKU lookup? -/
def isFindBySku : Effect → Bool
  | .findBySku _ => true
  | _ => false

/-! ### Concrete fixtures used to instantiate the theorems -/

/-- A looked-up variant used in concrete instantiations. -/
def infoW : LookupInfo where
  variantGid := "gid://shopify/ProductVariant/111"
  productGid := "gid://shopify/Product/222"
  variantNum := "111"
  inventoryItemId := 333

/-- A webhook environment in which every external call succeeds. -/
def envAllOk : WebhookEnv where
  lookup := .ok (some infoW)
  variantDetailsResp := .ok ()
  productTitleResp := .ok ()
  defaultPriceResp := .ok ()
  metafieldResp := .ok ()
  locationResp := .ok "77"
  inventoryResp := .ok (some { errField := Option.none, errsField := Option.none })
  priceResp := fun _ => .ok ⟨"ok"⟩

/-- The same environment, but the SKU matches no variant. -/
def envNotFound : WebhookEnv := { envAllOk with lookup := .ok Option.none }

/-- The same environment, but the UAE price-list write raises an HTTP error. -/
def envUAEFails : WebhookEnv :=
  { envAllOk with
    priceResp := fun m => if m = Market.UAE then .error "boom" else .ok ⟨"ok"⟩ }

/-- An authorized webhook request with prices for all three regions, no quantity. -/
def inpAllPrices : WebhookInput where
  secretHeader := some "s3cret!"
  body := [("SKU", .str "P100"), ("UAE price", .num 10), ("Asia Price", .num 20),
    ("America Price", .num 30)]

/-- An authorized webhook request whose quantity field is a blank string. -/
def inpQtyBlank : WebhookInput where
  secretHeader := some "s3cret!"
  body := [("SKU", .str "P100"), ("Qty given in shopify", .str "  ")]

/-- An authorized webhook request with an explicit zero quantity. -/
def inpQtyZero : WebhookInput where
  secretHeader := some "s3cret!"
  body := [("SKU", .str "P100"), ("Qty given in shopify", .num 0)]

/-- A valid create request whose SKU already exists upstream. -/
def reqC : CreateInput where
  record_id := .str "recA1"
  fields := [("Product Name", .str "Sauvage EDP"), ("SKU", .str "P100"),
    ("Qty given in shopify", .num 5), ("UAE Price", .num 120), ("Brand", .str "Dior")]

/-- The creation-response ids used in concrete instantiations. -/
def idsC : CreateOkIds := ⟨some 9001, some 9002, some 9003⟩

/-- A create-endpoint environment in which every external call succeeds. -/
def cEnvOk : CreateEnv where
  envOk := true
  linkedImages := ["https://img.example/1.jpg"]
  searchResult := Option.none
  createResp := .ok idsC
  locationsResp := .ok [55]
  invSetResp := .ok ()
  airtableConfigured := true
  airtableResp := .ok ()

/-- The same environment, but the inventory set and the Airtable write-back fail. -/
def cEnvInvFails : CreateEnv :=
  { cEnvOk with
    invSetResp := .error "inventory set failed"
    airtableResp := .error "airtable down" }

/-- A webhook environment whose primary-location read raises. -/
def envLocFails : WebhookEnv := { envAllOk with locationResp := .error "locations down" }

/-! ### Theorems -/

/-- Claim C3: the product lifecycle status computed by `create_shopify_item` is
`"active"` iff the quantity parsed from the "Qty given in shopify" field is
positive, and `"draft"` otherwise; the status is a function of the parsed
quantity alone. -/
theorem c3_thm :
    ∀ v : PyVal,
      (CSI.product_status (CSI.to_number v) = "active" ↔ 0 < CSI.to_number v)
      ∧ (CSI.product_status (CSI.to_number v) = "draft" ↔ ¬ 0 < CSI.to_number v) := by
  intro v
  unfold CSI.product_status
  constructor
  · constructor
    · intro h
      by_contra hq
      rw [if_neg (by simpa using hq)] at h
      exact absurd h (by decide)
    · intro h
      rw [if_pos (by simpa using h)]
  · constructor
    · intro h
      by_contra hq
      rw [if_pos (by simpa using hq)] at h
      exact absurd h (by decide)
    · intro h
      rw [if_neg (by simpa using h)]

/-- Claim C4: the numeric coercions used by the workflows are total: `None` and
blank strings coerce to `0` in `create_shopify_item._to_number` and to the
absent value `none` in `shopify_utils._to_number`, and strings rejected by both
numeric parsers do the same; no input raises and no number-valued position
receives a non-number. -/
theorem c4_thm :
    ∀ s : String,
      CSI.to_number PyVal.none = 0
      ∧ SU.to_number PyVal.none = Option.none
      ∧ (pyStrip s = "" → CSI.to_number (.str s) = 0 ∧ SU.to_number (.str s) = Option.none)
      ∧ (parseFloatStr (pyStrip s) = Option.none → parseIntStr (pyStrip s) = Option.none →
          CSI.to_number (.str s) = 0 ∧ SU.to_number (.str s) = Option.none) := by
  intro s
  refine ⟨rfl, rfl, ?_, ?_⟩
  · intro h
    constructor
    · simp [CSI.to_number, h]
    · simp [SU.to_number, h]
  · intro hf hi
    constructor
    · simp [CSI.to_number, hf]
    · unfold SU.to_number
      by_cases ht : pyStrip s = ""
      · simp [ht]
      · by_cases hd : (pyStrip s).contains '.'
        · simp [ht, hd, hf]
        · simp [ht, hd, hi]

/-- Witness for C4 at the blank input `"  "` and the malformed input `"abc"`. -/
theorem c4_witness :
    (pyStrip "  " = ""
      ∧ CSI.to_number (.str "  ") = 0 ∧ SU.to_number (.str "  ") = Option.none)
    ∧ (parseFloatStr (pyStrip "abc") = Option.none ∧ parseIntStr (pyStrip "abc") = Option.none
      ∧ CSI.to_number (.str "abc") = 0 ∧ SU.to_number (.str "abc") = Option.none) := by
  have h1 := (c4_thm "  ").2.2.1 (by decide)
  have h2 := (c4_thm "abc").2.2.2 (by decide) (by decide)
  exact ⟨⟨by decide, h1.1, h1.2⟩, by decide, by decide, h2.1, h2.2⟩

/-- Claim C9: the research stage accepts the cheaper (`sonar`) result only when it has
at least 3 total notes and a reliable source; otherwise the outcome is determined by
the stronger (`sonar-pro`) attempt; a pro result with meaningful notes is used even
without a reliable source; and when neither attempt yields any notes the stage
returns the empty result (and, being a total function, never fails). -/
theorem c9_thm :
    ∀ sonar pro : NotesResult,
      (has_meaningful_notes sonar = true → has_reliable_sources sonar = true →
        fetch_notes_with_fallback true sonar pro = sonar)
      ∧ ((has_meaningful_notes sonar && has_reliable_sources sonar) = false →
        fetch_notes_with_fallback true sonar pro =
          (if has_meaningful_notes pro then pro else empty_result))
      ∧ ((has_meaningful_notes sonar && has_reliable_sources sonar) = false →
        has_meaningful_notes pro = true → has_reliable_sources pro = false →
        fetch_notes_with_fallback true sonar pro = pro)
      ∧ (sonar.top = [] → sonar.heart = [] → sonar.base = [] →
        pro.top = [] → pro.heart = [] → pro.base = [] →
        fetch_notes_with_fallback true sonar pro = empty_result) := by
  intro sonar pro
  refine ⟨?_, ?_, ?_, ?_⟩
  · intro h1 h2
    simp [fetch_notes_with_fallback, h1, h2]
  · intro h
    by_cases hp : has_meaningful_notes pro = true
    · by_cases hr : has_reliable_sources pro = true
      · simp [fetch_notes_with_fallback, h, hp, hr]
      · simp only [Bool.not_eq_true] at hr
        simp [fetch_notes_with_fallback, h, hp, hr]
    · simp only [Bool.not_eq_true] at hp
      simp [fetch_notes_with_fallback, h, hp]
  · intro h hp hr
    simp [fetch_notes_with_fallback, h, hp, hr]
  · intro h1 h2 h3 h4 h5 h6
    have hs : has_meaningful_notes sonar = false := by
      simp [has_meaningful_notes, h1, h2, h3]
    have hp : has_meaningful_notes pro = false := by
      simp [has_meaningful_notes, h4, h5, h6]
    simp [fetch_notes_with_fallback, hs, hp]

/-- Witness for C9: a reliable sonar result is accepted; a meaningful pro result
without reliable sources is still used after an unreliable sonar attempt; two
empty attempts give the empty result. -/
theorem c9_witness :
    fetch_notes_with_fallback true
        ⟨["Bergamot", "Lemon"], ["Rose"], [], ["https://www.fragrantica.com/perfume/x"]⟩
        empty_result
      = ⟨["Bergamot", "Lemon"], ["Rose"], [], ["https://www.fragrantica.com/perfume/x"]⟩
    ∧ fetch_notes_with_fallback true
        ⟨["Musk"], [], [], []⟩
        ⟨["Oud", "Amber"], ["Iris"], [], ["https://example.com/blog"]⟩
      = ⟨["Oud", "Amber"], ["Iris"], [], ["https://example.com/blog"]⟩
    ∧ fetch_notes_with_fallback true empty_result empty_result = empty_result := by
  refine ⟨?_, ?_, ?_⟩
  · exact (c9_thm _ _).1 (by decide) (by decide)
  · exact (c9_thm _ _).2.2.1 (by decide) (by decide) (by decide)
  · exact (c9_thm _ _).2.2.2 rfl rfl rfl rfl rfl rfl

/-- `wsThen` holds whenever its continuation holds with no whitespace consumed. -/
theorem wsThen_of_head (p : List Char → Bool) (l : List Char) (h : p l = true) :
    wsThen p l = true := by
  cases l <;> simp [wsThen, h]

/-- A case-insensitive literal always matches itself. -/
theorem matchCI_self (p rest : List Char) : matchCI p (p ++ rest) = some rest := by
  induction p with
  | nil => simp [matchCI]
  | cons a as ih => simp [matchCI, ciEq, ih]

/-- The heading pattern matches at the very start of a freshly prepended heading. -/
theorem matchH2At_prepend (name t : List Char) :
    matchH2At name ((h2open ++ name ++ h2close ++ ['\n']) ++ t) = true := by
  have hs : (h2open ++ name ++ h2close ++ ['\n']) ++ t
      = h2open ++ (name ++ (h2close ++ ('\n' :: t))) := by
    simp [List.append_assoc]
  rw [hs]
  unfold matchH2At
  rw [matchCI_self]
  apply wsThen_of_head
  simp only [matchCI_self]
  apply wsThen_of_head
  simp [matchCI_self]

/-- `searchH2` succeeds when the pattern matches at the current position. -/
theorem searchH2_of_matchH2At (name l : List Char) (h : matchH2At name l = true) :
    searchH2 name l = true := by
  cases l <;> simp [searchH2, h]

/-- A successful `matchCI` consumes exactly the pattern's length. -/
theorem matchCI_length :
    ∀ p s r : List Char, matchCI p s = some r → p.length + r.length = s.length := by
  intro p
  induction p with
  | nil =>
    intro s r h
    simp [matchCI] at h
    simp [h]
  | cons a as ih =>
    intro s r h
    cases s with
    | nil => simp [matchCI] at h
    | cons c cs =>
      by_cases hc : ciEq a c = true
      · simp only [matchCI, hc, if_true] at h
        have := ih cs r h
        simp only [List.length_cons]
        omega
      · simp [matchCI, hc] at h

/-- `skipToGt` strictly shortens the string. -/
theorem skipToGt_length :
    ∀ s r : List Char, skipToGt s = some r → r.length < s.length := by
  intro s
  induction s with
  | nil => intro r h; simp [skipToGt] at h
  | cons c cs ih =>
    intro r h
    by_cases hc : c = '>'
    · simp only [skipToGt, hc, if_true] at h
      injection h with h
      subst h
      exact Nat.lt_succ_self _
    · simp only [skipToGt, hc, if_false] at h
      exact Nat.lt_trans (ih r h) (by simp)

/-- `skipToGtKeep` strictly shortens the string. -/
theorem skipToGtKeep_length :
    ∀ s p, skipToGtKeep s = some p → p.2.length < s.length := by
  intro s
  induction s with
  | nil => intro p h; simp [skipToGtKeep] at h
  | cons c cs ih =>
    intro p h
    by_cases hc : c = '>'
    · simp only [skipToGtKeep, hc, if_true] at h
      injection h with h
      subst h
      exact Nat.lt_succ_self _
    · simp only [skipToGtKeep, hc, if_false] at h
      cases hq : skipToGtKeep cs with
      | none => rw [hq] at h; exact absurd h (by simp)
      | some q =>
        rw [hq] at h
        simp only [Option.some.injEq] at h
        have := ih q hq
        rw [← h]
        exact Nat.lt_trans this (by simp)

/-- `tryOpen` strictly shortens the string. -/
theorem tryOpen_length :
    ∀ opener s r, tryOpen opener s = some r → r.length < s.length := by
  intro opener s r h
  unfold tryOpen at h
  cases hm : matchCI opener s with
  | none => rw [hm] at h; exact absurd h (by simp)
  | some r1 =>
    rw [hm] at h
    have h1 := matchCI_length opener s r1 hm
    have h2 := skipToGt_length r1 r h
    omega

/-- `findClose` with a nonempty closing literal strictly shortens the string. -/
theorem findClose_length :
    ∀ (close : List Char), close ≠ [] →
      ∀ s r, findClose close s = some r → r.length < s.length := by
  intro close hc s
  induction s with
  | nil => intro r h; simp [findClose] at h
  | cons c cs ih =>
    intro r h
    unfold findClose at h
    cases hm : matchCI close (c :: cs) with
    | some q =>
      rw [hm] at h
      simp only [Option.some.injEq] at h
      have := matchCI_length close (c :: cs) q hm
      have hlen : 1 ≤ close.length := by
        cases close with
        | nil => exact absurd rfl hc
        | cons _ _ => simp
      rw [← h]
      simp only [List.length_cons] at this ⊢
      omega
    | none =>
      rw [hm] at h
      by_cases hn : c = '\n'
      · rw [if_pos hn] at h; exact absurd h (by simp)
      · rw [if_neg hn] at h
        exact Nat.lt_trans (ih r h) (by simp)

/-- `tryBlockAt` strictly shortens the string. -/
theorem tryBlockAt_length :
    ∀ s r, tryBlockAt s = some r → r.length < s.length := by
  intro s r h
  unfold tryBlockAt at h
  cases h1 : tryOpen "<script".data s with
  | some m =>
    rw [h1] at h
    have := findClose_length "</script>".data (by decide) m r h
    exact Nat.lt_trans this (tryOpen_length _ s m h1)
  | none =>
    rw [h1] at h
    cases h2 : tryOpen "<style".data s with
    | some m =>
      rw [h2] at h
      have := findClose_length "</style>".data (by decide) m r h
      exact Nat.lt_trans this (tryOpen_length _ s m h2)
    | none => rw [h2] at h; exact absurd h (by simp)

/-- `spanTag` never lengthens the remainder. -/
theorem spanTag_length : ∀ l : List Char, (spanTag l).2.length ≤ l.length := by
  intro l
  induction l with
  | nil => simp [spanTag]
  | cons c cs ih =>
    by_cases hc : isTagChar c = true
    · simp only [spanTag, hc, if_true]
      exact Nat.le_trans ih (by simp)
    · simp [spanTag, hc]

/-- `tryTagBody` strictly shortens the string it scans. -/
theorem tryTagBody_length :
    ∀ pre r x, tryTagBody pre r = some x → x.2.2.length < r.length := by
  intro pre r x h
  unfold tryTagBody at h
  by_cases he : (spanTag r).1.isEmpty = true
  · rw [if_pos he] at h; exact absurd h (by simp)
  · rw [if_neg he] at h
    cases hq : skipToGtKeep (spanTag r).2 with
    | none => rw [hq] at h; exact absurd h (by simp)
    | some q =>
      rw [hq] at h
      simp only [Option.some.injEq] at h
      have h1 := skipToGtKeep_length _ q hq
      have h2 := spanTag_length r
      rw [← h]
      simp only
      omega

/-- `tryTagAt` strictly shortens the string. -/
theorem tryTagAt_length :
    ∀ s x, tryTagAt s = some x → x.2.2.length < s.length := by
  intro s x h
  cases s with
  | nil => simp [tryTagAt] at h
  | cons c r1 =>
    simp only [tryTagAt] at h
    by_cases hc : c = '<'
    · rw [if_pos hc] at h
      cases r1 with
      | nil => exact absurd h (by simp)
      | cons d r2 =>
        dsimp only at h
        by_cases hd : d = '/'
        · rw [if_pos hd] at h
          have := tryTagBody_length _ _ x h
          simp only [List.length_cons]
          omega
        · rw [if_neg hd] at h
          have := tryTagBody_length _ _ x h
          simp only [List.length_cons] at this ⊢
          omega
    · rw [if_neg hc] at h; exact absurd h (by simp)

/-- Any fuel of at least the string's length computes the same `removeBlocksF`. -/
theorem removeBlocksF_stable :
    ∀ (f g : Nat) (s : List Char), s.length ≤ f → s.length ≤ g →
      removeBlocksF f s = removeBlocksF g s := by
  intro f
  induction f with
  | zero =>
    intro g s hf _
    have : s = [] := by
      cases s with
      | nil => rfl
      | cons _ _ => simp at hf
    subst this
    cases g <;> simp [removeBlocksF]
  | succ f ih =>
    intro g s hf hg
    cases s with
    | nil => cases g <;> simp [removeBlocksF]
    | cons c rest =>
      cases g with
      | zero => simp at hg
      | succ g =>
        simp only [removeBlocksF]
        cases hb : tryBlockAt (c :: rest) with
        | some r =>
          have hr := tryBlockAt_length _ r hb
          simp only [List.length_cons] at hr hf hg
          exact ih g r (by omega) (by omega)
        | none =>
          simp only [List.length_cons] at hf hg
          rw [ih g rest (by omega) (by omega)]

/-- Any fuel of at least the string's length computes the same `stripTagsF`. -/
theorem stripTagsF_stable :
    ∀ (f g : Nat) (s : List Char), s.length ≤ f → s.length ≤ g →
      stripTagsF f s = stripTagsF g s := by
  intro f
  induction f with
  | zero =>
    intro g s hf _
    have : s = [] := by
      cases s with
      | nil => rfl
      | cons _ _ => simp at hf
    subst this
    cases g <;> simp [stripTagsF]
  | succ f ih =>
    intro g s hf hg
    cases s with
    | nil => cases g <;> simp [stripTagsF]
    | cons c rest =>
      cases g with
      | zero => simp at hg
      | succ g =>
        simp only [stripTagsF]
        cases hb : tryTagAt (c :: rest) with
        | some x =>
          have hr := tryTagAt_length _ x hb
          simp only [List.length_cons] at hr hf hg
          have hrec := ih g x.2.2 (by omega) (by omega)
          simp [hrec]
        | none =>
          simp only [List.length_cons] at hf hg
          rw [ih g rest (by omega) (by omega)]

/-- Claim C8 (amended): the sanitizer's output always contains an `<h2>` heading
matching the perfume name (the search pattern of the code, which compares the
name case-insensitively), prepending `<h2>{name}</h2>` when it is missing; and
script blocks whose opening and closing tags sit on a single line are removed
entirely together with their content, while other disallowed tags are stripped. -/
theorem c8_amended_thm :
    (∀ htmlT name : List Char, searchH2 name (sanitizeL htmlT name) = true)
    ∧ sanitize_html "<p>hi</p><script>bad()</script><div>y</div>" "Dior"
        = "<h2>Dior</h2>\n<p>hi</p>y" := by
  constructor
  · intro htmlT name
    unfold sanitizeL
    by_cases h : searchH2 name (stripTags (removeBlocks htmlT)) = true
    · simp [h]
    · simp only [Bool.not_eq_true] at h
      simp only [h, Bool.false_eq_true, if_false]
      exact searchH2_of_matchH2At _ _ (matchH2At_prepend name _)
  · decide

/-- Counterexample to claim C8 as stated: for a script block whose content spans a
newline, only the tags are removed and the script body (`alert(1)`) survives in the
sanitized output, so script blocks are not always removed entirely. -/
theorem c8_cex :
    sanitize_html "<script>\nalert(1)\n</script>" "X" = "<h2>X</h2>\n\nalert(1)\n"
    ∧ containsSub (sanitize_html "<script>\nalert(1)\n</script>" "X").data
        "alert(1)".data = true := by
  constructor
  · decide
  · decide

/-- Monotonicity of `List.all` along a pointwise implication. -/
theorem listAllImp {α : Type} (p q : α → Bool) (h : ∀ a, p a = true → q a = true) :
    ∀ l : List α, l.all p = true → l.all q = true := by
  intro l hl
  rw [List.all_eq_true] at hl ⊢
  exact fun a ha => h a (hl a ha)

/-- `andThen` traces only combine the two steps' traces. -/
theorem andThen_all (q : Effect → Bool) (x y : Except String Unit × List Effect)
    (hx : x.2.all q = true) (hy : y.2.all q = true) :
    ((andThen x y).2.all q) = true := by
  rcases x with ⟨r, tr⟩
  cases r with
  | error e => simpa [andThen] using hx
  | ok _ =>
    simp only [andThen, List.all_append, Bool.and_eq_true]
    exact ⟨hx, hy⟩

/-- All effects of the details/title step are detail updates on the looked-up ids. -/
theorem whDetails_all (env : WebhookEnv) (info : LookupInfo) (p : WhParsed) :
    ((whDetails env info p).2.all (isDetailsEffect info)) = true := by
  cases ht : p.title.truthy <;> cases hb : p.barcode.truthy <;>
    cases hv : env.variantDetailsResp <;> cases hp : env.productTitleResp <;>
      simp [whDetails, ht, hb, hv, hp, isDetailsEffect]

/-- All effects of the default-price step are default-price updates on the
looked-up variant. -/
theorem whDefaultPrice_all (env : WebhookEnv) (info : LookupInfo) (p : WhParsed) :
    ((whDefaultPrice env info p).2.all (isDefaultPriceEffect info)) = true := by
  cases hu : p.priceUAE <;> cases hd : env.defaultPriceResp <;>
    simp [whDefaultPrice, hu, hd, isDefaultPriceEffect]

/-- All effects of the size-metafield step are metafield writes on the looked-up
variant. -/
theorem whMeta_all (env : WebhookEnv) (info : LookupInfo) (p : WhParsed) :
    ((whMeta env info p).2.all (isMetaEffect info)) = true := by
  cases hs : sizeProvided p.sizeValue <;> cases hm : env.metafieldResp <;>
    simp [whMeta, hs, hm, isMetaEffect]

/-- All effects of webhook steps 2–4 are field updates on the looked-up ids. -/
theorem whUpdates_all (env : WebhookEnv) (info : LookupInfo) (p : WhParsed) :
    ((whUpdates env info p).2.all (isUpdatesEffect info)) = true := by
  unfold whUpdates
  apply andThen_all
  · exact listAllImp _ _ (fun a ha => by simp [isUpdatesEffect, ha]) _
      (whDetails_all env info p)
  · apply andThen_all
    · exact listAllImp _ _ (fun a ha => by simp [isUpdatesEffect, ha]) _
        (whDefaultPrice_all env info p)
    · exact listAllImp _ _ (fun a ha => by simp [isUpdatesEffect, ha]) _
        (whMeta_all env info p)

/-- All effects of the inventory step are the location read and the inventory write
on the looked-up inventory item. -/
theorem whInventory_all (env : WebhookEnv) (info : LookupInfo) (qa : Option Rat) :
    ((whInventory env info qa).2.2.all (isInventoryEffect info)) = true := by
  cases qa with
  | none => simp [whInventory]
  | some q =>
    cases hl : env.locationResp with
    | error e => simp [whInventory, hl, isInventoryEffect]
    | ok loc =>
      by_cases he : loc = ""
      · simp [whInventory, hl, he, isInventoryEffect]
      · cases hi : env.inventoryResp with
        | error e => simp [whInventory, hl, he, hi, isInventoryEffect]
        | ok jo =>
          cases jo <;> simp [whInventory, hl, he, hi, isInventoryEffect]

/-- All effects of the price-list step are price-list writes on the looked-up
variant. -/
theorem whPrices_all (env : WebhookEnv) (vg : String) (p : WhParsed) :
    ∀ ms : List Market, ((whPrices env vg p ms).2.all (isPriceEffect vg)) = true := by
  intro ms
  induction ms with
  | nil => simp [whPrices]
  | cons m rest ih =>
    cases ha : parsedPrice p m with
    | none => simpa [whPrices, ha] using ih
    | some amt =>
      cases hr : env.priceResp m with
      | error e => simp [whPrices, ha, hr, isPriceEffect]
      | ok j =>
        rcases hw : whPrices env vg p rest with ⟨res, tr⟩
        rw [hw] at ih
        cases res <;> simp_all [whPrices, ha, hr, isPriceEffect]

/-- Generic trace invariant of the webhook handler when the SKU lookup found a
variant: every performed effect is the lookup itself, an update-step effect, an
inventory-step effect, or a price-step effect. -/
theorem handle_found_all (cfg : String) (inp : WebhookInput) (env : WebhookEnv)
    (info : LookupInfo) (q : Effect → Bool)
    (hlk : env.lookup = .ok (some info))
    (hfind : q (.findBySku (whParse inp.body).sku) = true)
    (hupd : ∀ a, isUpdatesEffect info a = true → q a = true)
    (hinv : ((whInventory env info (whParse inp.body).qtyAbs).2.2.all q) = true)
    (hpr : ∀ a, isPriceEffect info.variantGid a = true → q a = true) :
    ((handle_airtable_webhook cfg inp env).2.all q) = true := by
  have htru := listAllImp _ _ hupd _ (whUpdates_all env info (whParse inp.body))
  have htrp := listAllImp _ _ hpr _
    (whPrices_all env info.variantGid (whParse inp.body)
      [Market.UAE, Market.Asia, Market.America])
  unfold handle_airtable_webhook
  by_cases hs : inp.secretHeader = some cfg
  · rw [if_pos hs]
    dsimp only
    by_cases hsku : (whParse inp.body).sku.truthy = true
    · rw [if_pos hsku, hlk]
      dsimp only
      rcases hu : whUpdates env info (whParse inp.body) with ⟨ru, tru⟩
      rw [hu] at htru
      dsimp only at htru
      cases ru with
      | error e =>
        dsimp only
        simp [List.all_cons, hfind, htru]
      | ok u =>
        dsimp only
        rcases hpz : whPrices env info.variantGid (whParse inp.body)
            [Market.UAE, Market.Asia, Market.America] with ⟨rp, trp⟩
        rw [hpz] at htrp
        dsimp only at htrp
        cases rp with
        | error e =>
          dsimp only
          simp [List.all_cons, List.all_append, hfind, htru, hinv, htrp]
        | ok plu =>
          dsimp only
          simp [List.all_cons, List.all_append, hfind, htru, hinv, htrp]
    · rw [if_neg hsku]
      simp
  · rw [if_neg hs]
    simp

/-- Update-step effects are targeted at the looked-up ids. -/
theorem updatesEffect_targets (info : LookupInfo) (a : Effect)
    (h : isUpdatesEffect info a = true) : targetsLookup info a = true := by
  cases a <;> simp_all [isUpdatesEffect, isDetailsEffect, isDefaultPriceEffect,
    isMetaEffect, targetsLookup]

/-- Inventory-step effects are targeted at the looked-up ids. -/
theorem inventoryEffect_targets (info : LookupInfo) (a : Effect)
    (h : isInventoryEffect info a = true) : targetsLookup info a = true := by
  cases a <;> simp_all [isInventoryEffect, targetsLookup]

/-- Price-step effects are targeted at the looked-up variant. -/
theorem priceEffect_targets (info : LookupInfo) (a : Effect)
    (h : isPriceEffect info.variantGid a = true) : targetsLookup info a = true := by
  cases a <;> simp_all [isPriceEffect, targetsLookup]

/-- When the lookup found a variant, every effect of the webhook handler targets
the looked-up variant/product/inventory item. -/
theorem handle_all_targets (cfg : String) (inp : WebhookInput) (env : WebhookEnv)
    (info : LookupInfo) (hlk : env.lookup = .ok (some info)) :
    ((handle_airtable_webhook cfg inp env).2.all (targetsLookup info)) = true := by
  apply handle_found_all cfg inp env info _ hlk
  · simp [targetsLookup]
  · exact updatesEffect_targets info
  · exact listAllImp _ _ (inventoryEffect_targets info) _
      (whInventory_all env info (whParse inp.body).qtyAbs)
  · exact priceEffect_targets info

/-- The webhook handler never performs a product-creation call, in any branch. -/
theorem handle_noCreate (cfg : String) (inp : WebhookInput) (env : WebhookEnv) :
    ((handle_airtable_webhook cfg inp env).2.any isCreateProduct) = false := by
  rw [← Bool.not_eq_true, List.any_eq_true]
  push_neg
  intro a ha
  suffices h : (fun a => !isCreateProduct a) a = true by
    simpa using h
  revert a ha
  rw [← List.all_eq_true]
  cases hlk : env.lookup with
  | error e =>
    unfold handle_airtable_webhook
    by_cases hs : inp.secretHeader = some cfg
    · rw [if_pos hs]
      dsimp only
      by_cases hsku : (whParse inp.body).sku.truthy = true
      · rw [if_pos hsku, hlk]
        simp [isCreateProduct]
      · rw [if_neg hsku]; simp
    · rw [if_neg hs]; simp
  | ok o =>
    cases o with
    | none =>
      unfold handle_airtable_webhook
      by_cases hs : inp.secretHeader = some cfg
      · rw [if_pos hs]
        dsimp only
        by_cases hsku : (whParse inp.body).sku.truthy = true
        · rw [if_pos hsku, hlk]
          simp [isCreateProduct]
        · rw [if_neg hsku]; simp
      · rw [if_neg hs]; simp
    | some info =>
      apply handle_found_all cfg inp env info _ hlk
      · simp [isCreateProduct]
      · intro a ha; cases a <;> simp_all [isUpdatesEffect, isDetailsEffect,
          isDefaultPriceEffect, isMetaEffect, isCreateProduct]
      · exact listAllImp _ _ (fun a ha => by
          cases a <;> simp_all [isInventoryEffect, isCreateProduct]) _
          (whInventory_all env info (whParse inp.body).qtyAbs)
      · intro a ha; cases a <;> simp_all [isPriceEffect, isCreateProduct]

/-- When no quantity was parsed from the body, the webhook handler performs no
inventory write in any branch and whatever the environment does. -/
theorem handle_noInv (cfg : String) (inp : WebhookInput) (env : WebhookEnv)
    (hq : (whParse inp.body).qtyAbs = Option.none) :
    ((handle_airtable_webhook cfg inp env).2.any isSetInventory) = false := by
  rw [← Bool.not_eq_true, List.any_eq_true]
  push_neg
  intro a ha
  suffices h : (fun a => !isSetInventory a) a = true by
    simpa using h
  revert a ha
  rw [← List.all_eq_true]
  cases hlk : env.lookup with
  | error e =>
    unfold handle_airtable_webhook
    by_cases hs : inp.secretHeader = some cfg
    · rw [if_pos hs]
      dsimp only
      by_cases hsku : (whParse inp.body).sku.truthy = true
      · rw [if_pos hsku, hlk]
        simp [isSetInventory]
      · rw [if_neg hsku]; simp
    · rw [if_neg hs]; simp
  | ok o =>
    cases o with
    | none =>
      unfold handle_airtable_webhook
      by_cases hs : inp.secretHeader = some cfg
      · rw [if_pos hs]
        dsimp only
        by_cases hsku : (whParse inp.body).sku.truthy = true
        · rw [if_pos hsku, hlk]
          simp [isSetInventory]
        · rw [if_neg hsku]; simp
      · rw [if_neg hs]; simp
    | some info =>
      apply handle_found_all cfg inp env info _ hlk
      · simp [isSetInventory]
      · intro a ha; cases a <;> simp_all [isUpdatesEffect, isDetailsEffect,
          isDefaultPriceEffect, isMetaEffect, isSetInventory]
      · rw [hq]
        simp [whInventory]
      · intro a ha; cases a <;> simp_all [isPriceEffect, isSetInventory]

/-- Steps 2–3 succeed when neither external call raises. -/
theorem whDetails_ok (env : WebhookEnv) (info : LookupInfo) (p : WhParsed)
    (h1 : env.variantDetailsResp = .ok ()) (h2 : env.productTitleResp = .ok ()) :
    (whDetails env info p).1 = .ok () := by
  unfold whDetails
  cases ht : p.title.truthy <;> cases hb : p.barcode.truthy <;> simp [h1, h2, ht, hb]

/-- The default-price step succeeds when its call does not raise. -/
theorem whDefaultPrice_ok (env : WebhookEnv) (info : LookupInfo) (p : WhParsed)
    (h3 : env.defaultPriceResp = .ok ()) :
    (whDefaultPrice env info p).1 = .ok () := by
  unfold whDefaultPrice
  cases p.priceUAE <;> simp [h3]

/-- The size-metafield step succeeds when its call does not raise. -/
theorem whMeta_ok (env : WebhookEnv) (info : LookupInfo) (p : WhParsed)
    (h4 : env.metafieldResp = .ok ()) :
    (whMeta env info p).1 = .ok () := by
  unfold whMeta
  cases hs : sizeProvided p.sizeValue <;> simp [h4]

/-- `andThen` succeeds when both steps succeed. -/
theorem andThen_fst_ok (a b : Except String Unit × List Effect)
    (ha : a.1 = .ok ()) (hb : b.1 = .ok ()) : (andThen a b).1 = .ok () := by
  rcases a with ⟨r, tr⟩
  cases r <;> simp_all [andThen]

/-- Webhook steps 2–4 succeed when none of their calls raises. -/
theorem whUpdates_ok (env : WebhookEnv) (info : LookupInfo) (p : WhParsed)
    (h1 : env.variantDetailsResp = .ok ()) (h2 : env.productTitleResp = .ok ())
    (h3 : env.defaultPriceResp = .ok ()) (h4 : env.metafieldResp = .ok ()) :
    (whUpdates env info p).1 = .ok () := by
  unfold whUpdates
  exact andThen_fst_ok _ _ (whDetails_ok env info p h1 h2)
    (andThen_fst_ok _ _ (whDefaultPrice_ok env info p h3) (whMeta_ok env info p h4))

/-- Full evaluation of the price-list loop when no call raises: every market with a
present price is written (independently) and its response collected in order. -/
theorem whPrices_eval (env : WebhookEnv) (vg : String) (p : WhParsed)
    (jf : Market → GqlJson) (hp : ∀ m, env.priceResp m = .ok (jf m)) :
    ∀ ms : List Market,
      whPrices env vg p ms =
        (.ok (ms.filterMap (fun m => (parsedPrice p m).map (fun _ => (m, jf m)))),
         ms.filterMap (fun m => (parsedPrice p m).map (fun amt =>
           Effect.priceListAdd m (price_list_gid m) vg amt (whCmp p m)))) := by
  intro ms
  induction ms with
  | nil => simp [whPrices]
  | cons m rest ih =>
    cases ha : parsedPrice p m with
    | none => simp [whPrices, ha, ih]
    | some amt => simp [whPrices, ha, hp m, ih]

/-- Full evaluation of the webhook response when the lookup finds a variant and no
update or price call raises: a 200 whose status and inventory fields are exactly
those computed by the inventory step. -/
theorem handle_eval_ok (cfg : String) (inp : WebhookInput) (env : WebhookEnv)
    (info : LookupInfo) (jf : Market → GqlJson)
    (hs : inp.secretHeader = some cfg)
    (hsku : (whParse inp.body).sku.truthy = true)
    (hlk : env.lookup = .ok (some info))
    (h1 : env.variantDetailsResp = .ok ()) (h2 : env.productTitleResp = .ok ())
    (h3 : env.defaultPriceResp = .ok ()) (h4 : env.metafieldResp = .ok ())
    (hp : ∀ m, env.priceResp m = .ok (jf m)) :
    (handle_airtable_webhook cfg inp env).1 = .ok
      { status := if optTruthy (whInventory env info (whParse inp.body).qtyAbs).2.1
                  then "partial_success" else "success"
        variant_id := info.variantGid
        product_id := info.productGid
        inventory_update := (whInventory env info (whParse inp.body).qtyAbs).1
        price_list_updates := [Market.UAE, Market.Asia, Market.America].filterMap
          (fun m => (parsedPrice (whParse inp.body) m).map (fun _ => (m, jf m)))
        inventory_error :=
          if optTruthy (whInventory env info (whParse inp.body).qtyAbs).2.1
          then (whInventory env info (whParse inp.body).qtyAbs).2.1
          else Option.none } := by
  have hup := whUpdates_ok env info (whParse inp.body) h1 h2 h3 h4
  unfold handle_airtable_webhook
  rw [if_pos hs]
  dsimp only
  rw [if_pos hsku, hlk]
  dsimp only
  rcases hu : whUpdates env info (whParse inp.body) with ⟨ru, tru⟩
  rw [hu] at hup
  dsimp only at hup
  cases ru with
  | error e => exact absurd hup (by simp)
  | ok u =>
    dsimp only
    rw [whPrices_eval env info.variantGid (whParse inp.body) jf hp]

/-- Claim C6: a webhook request whose `X-Secret-Token` header differs from the
configured shared secret is answered 401 Unauthorized with no downstream call
of any kind performed. -/
theorem c6_thm (cfg : String) (inp : WebhookInput) (env : WebhookEnv)
    (h : inp.secretHeader ≠ some cfg) :
    handle_airtable_webhook cfg inp env = (.unauthorized, []) := by
  unfold handle_airtable_webhook
  rw [if_neg h]

/-- Witness for C6 at a concrete wrong header. -/
theorem c6_witness :
    (some "wrong" ≠ some "s3cret!")
    ∧ handle_airtable_webhook "s3cret!" ⟨some "wrong", []⟩ envAllOk
        = (.unauthorized, []) :=
  ⟨by decide, c6_thm "s3cret!" ⟨some "wrong", []⟩ envAllOk (by decide)⟩

/-- Claim C7: an authorized webhook request whose SKU matches no variant is
answered 404 after performing only the lookup (no mutation of any kind), and the
lookup helper itself reports "not found" as an all-`None` result — without ever
reaching the REST call — rather than raising. -/
theorem c7_thm (cfg : String) (inp : WebhookInput) (env : WebhookEnv)
    (hs : inp.secretHeader = some cfg)
    (hsku : (whParse inp.body).sku.truthy = true)
    (hlk : env.lookup = .ok Option.none) :
    handle_airtable_webhook cfg inp env
      = (.notFound ("Variant with SKU " ++ pyStr (whParse inp.body).sku ++ " not found"),
        [.findBySku (whParse inp.body).sku])
    ∧ (∀ renv : SkuLookupEnv, renv.gqlNodes = .ok [] →
        get_variant_product_and_inventory_by_sku renv = .ok Option.none) := by
  constructor
  · unfold handle_airtable_webhook
    rw [if_pos hs]
    dsimp only
    rw [if_pos hsku, hlk]
  · intro renv hr
    unfold get_variant_product_and_inventory_by_sku
    rw [hr]

/-- Witness for C7 at a concrete unknown SKU. -/
theorem c7_witness :
    handle_airtable_webhook "s3cret!" ⟨some "s3cret!", [("SKU", PyVal.str "NOPE")]⟩
        envNotFound
      = (.notFound "Variant with SKU NOPE not found", [.findBySku (.str "NOPE")])
    ∧ get_variant_product_and_inventory_by_sku ⟨.ok [], .error "rest never reached"⟩
      = .ok Option.none := by
  have h := c7_thm "s3cret!" ⟨some "s3cret!", [("SKU", PyVal.str "NOPE")]⟩ envNotFound
    rfl (by decide) rfl
  refine ⟨?_, h.2 ⟨.ok [], .error "rest never reached"⟩ rfl⟩
  rw [h.1]
  decide

/-- `List.any` is false when the negated predicate holds everywhere. -/
theorem listAnyFalse {α : Type} (p : α → Bool) (l : List α)
    (h : l.all (fun a => !p a) = true) : l.any p = false := by
  rw [← Bool.not_eq_true, List.any_eq_true]
  push_neg
  intro a ha
  have := (List.all_eq_true.mp h) a ha
  simpa using this

/-- The full effect trace of the webhook handler when the lookup finds a variant
and no update call raises: the lookup, then the update effects, then the
inventory effects, then the price-list effects, in order. -/
theorem handle_trace_found (cfg : String) (inp : WebhookInput) (env : WebhookEnv)
    (info : LookupInfo)
    (hs : inp.secretHeader = some cfg)
    (hsku : (whParse inp.body).sku.truthy = true)
    (hlk : env.lookup = .ok (some info))
    (h1 : env.variantDetailsResp = .ok ()) (h2 : env.productTitleResp = .ok ())
    (h3 : env.defaultPriceResp = .ok ()) (h4 : env.metafieldResp = .ok ()) :
    (handle_airtable_webhook cfg inp env).2
      = .findBySku (whParse inp.body).sku ::
        ((whUpdates env info (whParse inp.body)).2
          ++ (whInventory env info (whParse inp.body).qtyAbs).2.2
          ++ (whPrices env info.variantGid (whParse inp.body)
                [Market.UAE, Market.Asia, Market.America]).2) := by
  have hup := whUpdates_ok env info (whParse inp.body) h1 h2 h3 h4
  unfold handle_airtable_webhook
  rw [if_pos hs]
  dsimp only
  rw [if_pos hsku, hlk]
  dsimp only
  rcases hu : whUpdates env info (whParse inp.body) with ⟨ru, tru⟩
  rw [hu] at hup
  dsimp only at hup
  cases ru with
  | error e => exact absurd hup (by simp)
  | ok u =>
    dsimp only
    rcases hpz : whPrices env info.variantGid (whParse inp.body)
        [Market.UAE, Market.Asia, Market.America] with ⟨rp, trp⟩
    cases rp <;> rfl

/-- The inventory step's effect trace when a quantity is present and the primary
location resolves: the location read followed by the absolute inventory write,
whatever the write's outcome. -/
theorem whInventory_trace_some (env : WebhookEnv) (info : LookupInfo) (q0 : Rat)
    (l : String) (hl : env.locationResp = .ok l) (hne : l ≠ "") :
    (whInventory env info (some q0)).2.2
      = [.getLocation, .setInventory info.inventoryItemId l q0] := by
  unfold whInventory
  rw [hl]
  dsimp only
  rw [if_neg hne]
  cases hi : env.inventoryResp with
  | error e => rfl
  | ok jo => cases jo <;> rfl

/-- Claim C10: for an authorized webhook request for an existing SKU, an absent,
blank, or unparseable "Qty given in shopify" field causes no inventory-level call
at all, and (when the remaining steps succeed) a 200 whose status is `success`
with a null `inventory_update` and no `inventory_error`; an explicit quantity —
including `0` — instead triggers the absolute inventory write with exactly that
quantity. -/
theorem c10_thm (cfg : String) (inp : WebhookInput) (env : WebhookEnv)
    (info : LookupInfo) (jf : Market → GqlJson)
    (hs : inp.secretHeader = some cfg)
    (hsku : (whParse inp.body).sku.truthy = true)
    (hlk : env.lookup = .ok (some info)) :
    ((whParse inp.body).qtyAbs = Option.none →
      ((handle_airtable_webhook cfg inp env).2.any isSetInventory = false)
      ∧ (env.variantDetailsResp = .ok () → env.productTitleResp = .ok () →
        env.defaultPriceResp = .ok () → env.metafieldResp = .ok () →
        (∀ m, env.priceResp m = .ok (jf m)) →
        ∃ b : WebhookOk, (handle_airtable_webhook cfg inp env).1 = .ok b
          ∧ b.status = "success" ∧ b.inventory_update = Option.none
          ∧ b.inventory_error = Option.none))
    ∧ (∀ q0 l, (whParse inp.body).qtyAbs = some q0 →
        env.variantDetailsResp = .ok () → env.productTitleResp = .ok () →
        env.defaultPriceResp = .ok () → env.metafieldResp = .ok () →
        env.locationResp = .ok l → l ≠ "" →
        Effect.setInventory info.inventoryItemId l q0
          ∈ (handle_airtable_webhook cfg inp env).2) := by
  constructor
  · intro hq
    constructor
    · exact handle_noInv cfg inp env hq
    · intro h1 h2 h3 h4 hp
      refine ⟨_, handle_eval_ok cfg inp env info jf hs hsku hlk h1 h2 h3 h4 hp,
        ?_, ?_, ?_⟩
      · simp [hq, whInventory, optTruthy]
      · simp [hq, whInventory]
      · simp [hq, whInventory, optTruthy]
  · intro q0 l hq h1 h2 h3 h4 hl hne
    rw [handle_trace_found cfg inp env info hs hsku hlk h1 h2 h3 h4]
    rw [hq, whInventory_trace_some env info q0 l hl hne]
    simp

/-- Witness for C10: a blank quantity gives no inventory call and a `success`
response with null inventory fields; an explicit `0` produces the absolute
write of `0`. -/
theorem c10_witness :
    (((handle_airtable_webhook "s3cret!" inpQtyBlank envAllOk).2.any isSetInventory
        = false)
      ∧ ∃ b : WebhookOk,
          (handle_airtable_webhook "s3cret!" inpQtyBlank envAllOk).1 = .ok b
          ∧ b.status = "success" ∧ b.inventory_update = Option.none
          ∧ b.inventory_error = Option.none)
    ∧ Effect.setInventory 333 "77" 0
      ∈ (handle_airtable_webhook "s3cret!" inpQtyZero envAllOk).2 := by
  have hb := c10_thm "s3cret!" inpQtyBlank envAllOk infoW (fun _ => ⟨"ok"⟩)
    rfl (by decide) rfl
  have hz := c10_thm "s3cret!" inpQtyZero envAllOk infoW (fun _ => ⟨"ok"⟩)
    rfl (by decide) rfl
  have h1 := hb.1 (by decide)
  refine ⟨⟨h1.1, h1.2 rfl rfl rfl rfl (fun m => rfl)⟩, ?_⟩
  exact hz.2 0 "77" (by decide) rfl rfl rfl rfl rfl (by decide)

/-- Update-step effects are never price-list writes. -/
theorem updatesEffect_not_price (info : LookupInfo) (m : Market) (a : Effect)
    (h : isUpdatesEffect info a = true) : isPriceFor m a = false := by
  cases a <;> simp_all [isUpdatesEffect, isDetailsEffect, isDefaultPriceEffect,
    isMetaEffect, isPriceFor]

/-- Inventory-step effects are never price-list writes. -/
theorem inventoryEffect_not_price (info : LookupInfo) (m : Market) (a : Effect)
    (h : isInventoryEffect info a = true) : isPriceFor m a = false := by
  cases a <;> simp_all [isInventoryEffect, isPriceFor]

/-- The webhook response when some price-list write raises (after successful
updates): a 500 carrying that exception's message. -/
theorem handle_eval_priceErr (cfg : String) (inp : WebhookInput) (env : WebhookEnv)
    (info : LookupInfo) (e : String) (trp : List Effect)
    (hs : inp.secretHeader = some cfg)
    (hsku : (whParse inp.body).sku.truthy = true)
    (hlk : env.lookup = .ok (some info))
    (h1 : env.variantDetailsResp = .ok ()) (h2 : env.productTitleResp = .ok ())
    (h3 : env.defaultPriceResp = .ok ()) (h4 : env.metafieldResp = .ok ())
    (hwp : whPrices env info.variantGid (whParse inp.body)
        [Market.UAE, Market.Asia, Market.America] = (.error e, trp)) :
    (handle_airtable_webhook cfg inp env).1 = .serverError e := by
  have hup := whUpdates_ok env info (whParse inp.body) h1 h2 h3 h4
  unfold handle_airtable_webhook
  rw [if_pos hs]
  dsimp only
  rw [if_pos hsku, hlk]
  dsimp only
  rcases hu : whUpdates env info (whParse inp.body) with ⟨ru, tru⟩
  rw [hu] at hup
  dsimp only at hup
  cases ru with
  | error e2 => exact absurd hup (by simp)
  | ok u =>
    dsimp only
    rw [hwp]

/-- Claim C5 (amended): when every price-list call returns a response (even one
carrying `userErrors` in its body), each region with a present price is written
independently and its response collected into `price_list_updates`; but when one
region's write raises a transport-level error, the handler returns a 500 with
that error, the remaining regions' writes never happen — while the inventory
update, which runs before the price loop, has already been performed. -/
theorem c5_amended_thm (cfg : String) (inp : WebhookInput) (env : WebhookEnv)
    (info : LookupInfo) (jf : Market → GqlJson)
    (hs : inp.secretHeader = some cfg)
    (hsku : (whParse inp.body).sku.truthy = true)
    (hlk : env.lookup = .ok (some info))
    (h1 : env.variantDetailsResp = .ok ()) (h2 : env.productTitleResp = .ok ())
    (h3 : env.defaultPriceResp = .ok ()) (h4 : env.metafieldResp = .ok ()) :
    ((∀ m, env.priceResp m = .ok (jf m)) →
      ∃ b : WebhookOk, (handle_airtable_webhook cfg inp env).1 = .ok b
        ∧ b.price_list_updates
          = [Market.UAE, Market.Asia, Market.America].filterMap
              (fun m => (parsedPrice (whParse inp.body) m).map (fun _ => (m, jf m))))
    ∧ (∀ amt e, parsedPrice (whParse inp.body) Market.UAE = some amt →
        env.priceResp Market.UAE = .error e →
        (handle_airtable_webhook cfg inp env).1 = .serverError e
        ∧ ((handle_airtable_webhook cfg inp env).2.any (isPriceFor Market.Asia)) = false
        ∧ ((handle_airtable_webhook cfg inp env).2.any (isPriceFor Market.America)) = false
        ∧ (∀ q0 l, (whParse inp.body).qtyAbs = some q0 → env.locationResp = .ok l →
            l ≠ "" → Effect.setInventory info.inventoryItemId l q0
              ∈ (handle_airtable_webhook cfg inp env).2)) := by
  constructor
  · intro hp
    exact ⟨_, handle_eval_ok cfg inp env info jf hs hsku hlk h1 h2 h3 h4 hp, rfl⟩
  · intro amt e hUAE herr
    have hwp : whPrices env info.variantGid (whParse inp.body)
        [Market.UAE, Market.Asia, Market.America]
        = (.error e, [Effect.priceListAdd Market.UAE (price_list_gid Market.UAE)
            info.variantGid amt (whCmp (whParse inp.body) Market.UAE)]) := by
      simp [whPrices, hUAE, herr]
    have htr2 : (whPrices env info.variantGid (whParse inp.body)
        [Market.UAE, Market.Asia, Market.America]).2
        = [Effect.priceListAdd Market.UAE (price_list_gid Market.UAE)
            info.variantGid amt (whCmp (whParse inp.body) Market.UAE)] := by
      rw [hwp]
    have htrace := handle_trace_found cfg inp env info hs hsku hlk h1 h2 h3 h4
    refine ⟨handle_eval_priceErr cfg inp env info e _ hs hsku hlk h1 h2 h3 h4 hwp,
      ?_, ?_, ?_⟩
    · apply listAnyFalse
      rw [htrace, htr2]
      simp only [List.all_cons, List.all_append, Bool.and_eq_true]
      refine ⟨by simp [isPriceFor], ⟨?_, ?_⟩, ?_⟩
      · exact listAllImp _ _ (fun a ha => by
          simp [updatesEffect_not_price info Market.Asia a ha]) _
          (whUpdates_all env info (whParse inp.body))
      · exact listAllImp _ _ (fun a ha => by
          simp [inventoryEffect_not_price info Market.Asia a ha]) _
          (whInventory_all env info (whParse inp.body).qtyAbs)
      · simp [isPriceFor]
    · apply listAnyFalse
      rw [htrace, htr2]
      simp only [List.all_cons, List.all_append, Bool.and_eq_true]
      refine ⟨by simp [isPriceFor], ⟨?_, ?_⟩, ?_⟩
      · exact listAllImp _ _ (fun a ha => by
          simp [updatesEffect_not_price info Market.America a ha]) _
          (whUpdates_all env info (whParse inp.body))
      · exact listAllImp _ _ (fun a ha => by
          simp [inventoryEffect_not_price info Market.America a ha]) _
          (whInventory_all env info (whParse inp.body).qtyAbs)
      · simp [isPriceFor]
    · intro q0 l hq hl hne
      rw [htrace, hq, whInventory_trace_some env info q0 l hl hne]
      simp

/-- Witness for C5: with all calls succeeding, all three regions are written and
collected; with the UAE write raising, the request fails with a 500 and the Asia
and America writes never happen. -/
theorem c5_witness :
    (∃ b : WebhookOk,
        (handle_airtable_webhook "s3cret!" inpAllPrices envAllOk).1 = .ok b
        ∧ b.price_list_updates
          = [(Market.UAE, ⟨"ok"⟩), (Market.Asia, ⟨"ok"⟩), (Market.America, ⟨"ok"⟩)])
    ∧ (handle_airtable_webhook "s3cret!" inpAllPrices envUAEFails).1
        = .serverError "boom"
    ∧ ((handle_airtable_webhook "s3cret!" inpAllPrices envUAEFails).2.any
        (isPriceFor Market.Asia)) = false
    ∧ ((handle_airtable_webhook "s3cret!" inpAllPrices envUAEFails).2.any
        (isPriceFor Market.America)) = false := by
  have ha := (c5_amended_thm "s3cret!" inpAllPrices envAllOk infoW (fun _ => ⟨"ok"⟩)
    rfl (by decide) rfl rfl rfl rfl rfl).1 (fun m => rfl)
  have hb := (c5_amended_thm "s3cret!" inpAllPrices envUAEFails infoW (fun _ => ⟨"ok"⟩)
    rfl (by decide) rfl rfl rfl rfl rfl).2 10 "boom" (by decide) rfl
  obtain ⟨b, hb1, hb2⟩ := ha
  exact ⟨⟨b, hb1, by rw [hb2]; decide⟩, hb.1, hb.2.1, hb.2.2.1⟩

/-- Counterexample to claim C5 as stated: a transport-level failure of the UAE
price-list write makes the whole request fail with a 500 — the error is raised,
not collected into `price_list_updates` — and the Asia and America writes are
prevented from happening at all. -/
theorem c5_cex :
    (handle_airtable_webhook "s3cret!" inpAllPrices envUAEFails).1
      = .serverError "boom"
    ∧ ((handle_airtable_webhook "s3cret!" inpAllPrices envUAEFails).2.any
        (isPriceFor Market.UAE)) = true
    ∧ ((handle_airtable_webhook "s3cret!" inpAllPrices envUAEFails).2.any
        (isPriceFor Market.Asia)) = false
    ∧ ((handle_airtable_webhook "s3cret!" inpAllPrices envUAEFails).2.any
        (isPriceFor Market.America)) = false := by
  refine ⟨?_, ?_, ?_, ?_⟩ <;> decide

/-- Full evaluation of the create-endpoint response once the product creation
succeeds with complete ids: always the plain-success 201 body, computed from the
request and the image resolution alone — unconditionally on the outcomes of
the inventory set, the metafields, and the Airtable write-back. -/
theorem create_eval_ok (inp : CreateInput) (env : CreateEnv) (ids : CreateOkIds)
    (hEnv : env.envOk = true)
    (hrid : inp.record_id.truthy = true)
    (hfields : inp.fields.isEmpty = false)
    (hname : (pyGetV inp.fields "Product Name").truthy = true)
    (hsku : (pyGetV inp.fields "SKU").truthy = true)
    (hcr : env.createResp = .ok ids)
    (hids : idsComplete ids = true) :
    (create_shopify_item inp env).1 = .created
      { success := true
        shopify_id := ids.shopify_id.getD 0
        variant_id := ids.variant_id.getD 0
        product_title := pyStrip (pyStr (pyGetD inp.fields "Product Name" (.str "")))
        images_used := (if !env.linkedImages.isEmpty then env.linkedImages
          else env.searchResult.getD []).length
        inventory_set := CSI.to_number (pyGetD inp.fields "Qty given in shopify" (.num 0))
        status := CSI.product_status
          (CSI.to_number (pyGetD inp.fields "Qty given in shopify" (.num 0))) } := by
  have hmiss : (["Product Name", "SKU"].filter
      (fun f => !(pyGetV inp.fields f).truthy)) = [] := by
    simp [hname, hsku]
  unfold create_shopify_item
  simp only [hEnv, hrid, hfields, hmiss, hcr, hids, Bool.not_false, Bool.and_self,
    List.isEmpty_nil, eq_self_iff_true, if_true]

/-- Claim C1 (amended): when the create-product step succeeds with complete ids,
`POST /create-shopify-item` always returns the plain-success 201 body; failures of
the later steps (inventory set, metafields, Airtable write-back) are caught and
logged but neither downgrade the result to `partial_success` nor attach any error
— the response is entirely independent of those steps' outcomes.  A
`partial_success` status with the failing step's error attached exists only in the
webhook handler, and there only for the inventory step. -/
theorem c1_amended_thm (inp : CreateInput) (env : CreateEnv) (ids : CreateOkIds)
    (hEnv : env.envOk = true)
    (hrid : inp.record_id.truthy = true)
    (hfields : inp.fields.isEmpty = false)
    (hname : (pyGetV inp.fields "Product Name").truthy = true)
    (hsku : (pyGetV inp.fields "SKU").truthy = true)
    (hcr : env.createResp = .ok ids)
    (hids : idsComplete ids = true) :
    ((create_shopify_item inp env).1 = .created
      { success := true
        shopify_id := ids.shopify_id.getD 0
        variant_id := ids.variant_id.getD 0
        product_title := pyStrip (pyStr (pyGetD inp.fields "Product Name" (.str "")))
        images_used := (if !env.linkedImages.isEmpty then env.linkedImages
          else env.searchResult.getD []).length
        inventory_set := CSI.to_number (pyGetD inp.fields "Qty given in shopify" (.num 0))
        status := CSI.product_status
          (CSI.to_number (pyGetD inp.fields "Qty given in shopify" (.num 0))) })
    ∧ (∀ env' : CreateEnv, env'.envOk = env.envOk →
        env'.linkedImages = env.linkedImages → env'.searchResult = env.searchResult →
        env'.createResp = env.createResp →
        (create_shopify_item inp env').1 = (create_shopify_item inp env).1)
    ∧ (∀ (cfg : String) (winp : WebhookInput) (wenv : WebhookEnv) (info : LookupInfo)
        (jf : Market → GqlJson) (q0 : Rat) (e : String),
        winp.secretHeader = some cfg → (whParse winp.body).sku.truthy = true →
        wenv.lookup = .ok (some info) →
        wenv.variantDetailsResp = .ok () → wenv.productTitleResp = .ok () →
        wenv.defaultPriceResp = .ok () → wenv.metafieldResp = .ok () →
        (∀ m, wenv.priceResp m = .ok (jf m)) →
        (whParse winp.body).qtyAbs = some q0 →
        wenv.locationResp = .error e → e ≠ "" →
        ∃ b : WebhookOk, (handle_airtable_webhook cfg winp wenv).1 = .ok b
          ∧ b.status = "partial_success" ∧ b.inventory_error = some e) := by
  refine ⟨create_eval_ok inp env ids hEnv hrid hfields hname hsku hcr hids, ?_, ?_⟩
  · intro env' e1 e2 e3 e4
    rw [create_eval_ok inp env' ids (e1.trans hEnv) hrid hfields hname hsku
      (e4.trans hcr) hids,
      create_eval_ok inp env ids hEnv hrid hfields hname hsku hcr hids, e2, e3]
  · intro cfg winp wenv info jf q0 e hs hsku2 hlk h1 h2 h3 h4 hp hq hloc he
    refine ⟨_, handle_eval_ok cfg winp wenv info jf hs hsku2 hlk h1 h2 h3 h4 hp,
      ?_, ?_⟩
    · simp [hq, whInventory, hloc, optTruthy, he]
    · simp [hq, whInventory, hloc, optTruthy, he]

/-- Witness for C1 at a concrete request: the response is the plain-success 201
body, and it is bit-for-bit identical whether the inventory set and write-back
succeed or fail. -/
theorem c1_witness :
    (create_shopify_item reqC cEnvOk).1 = .created
      { success := true
        shopify_id := 9001
        variant_id := 9002
        product_title := "Sauvage EDP"
        images_used := 1
        inventory_set := 5
        status := "active" }
    ∧ (create_shopify_item reqC cEnvInvFails).1 = (create_shopify_item reqC cEnvOk).1
    ∧ ∃ b : WebhookOk,
        (handle_airtable_webhook "s3cret!" inpQtyZero envLocFails).1 = .ok b
        ∧ b.status = "partial_success" ∧ b.inventory_error = some "locations down" := by
  have h := c1_amended_thm reqC cEnvOk idsC rfl (by decide) (by decide) (by decide)
    (by decide) rfl (by decide)
  refine ⟨?_, ?_, ?_⟩
  · rw [h.1]
    decide
  · exact h.2.1 cEnvInvFails rfl rfl rfl rfl
  · exact h.2.2 "s3cret!" inpQtyZero envLocFails infoW (fun _ => ⟨"ok"⟩) 0
      "locations down" rfl (by decide) rfl rfl rfl rfl rfl (fun m => rfl)
      (by decide) rfl (by decide)

/-- Counterexample to claim C1 as stated: for a request whose inventory-set and
write-back steps fail after a successful product creation, the endpoint's entire
output — response and calls — is identical to the all-success run: a plain-success
201 with no `partial_success` marker and no attached error. -/
theorem c1_cex :
    create_shopify_item reqC cEnvInvFails = create_shopify_item reqC cEnvOk
    ∧ (create_shopify_item reqC cEnvInvFails).1 = .created
      { success := true
        shopify_id := 9001
        variant_id := 9002
        product_title := "Sauvage EDP"
        images_used := 1
        inventory_set := 5
        status := "active" } := by
  constructor
  · decide
  · decide

/-- Claim C2 (amended): in-place idempotent updating holds only for the webhook
workflow — it never creates a product, in any branch and under any environment,
and when the SKU lookup succeeds every call it performs targets exactly the
variant/product/inventory item the lookup returned.  The create endpoint (see the
counterexample) performs no SKU lookup and unconditionally creates. -/
theorem c2_amended_thm :
    (∀ (cfg : String) (inp : WebhookInput) (env : WebhookEnv),
      ((handle_airtable_webhook cfg inp env).2.any isCreateProduct) = false)
    ∧ (∀ (cfg : String) (inp : WebhookInput) (env : WebhookEnv) (info : LookupInfo),
      env.lookup = .ok (some info) →
      ((handle_airtable_webhook cfg inp env).2.all (targetsLookup info)) = true) :=
  ⟨handle_noCreate, fun cfg inp env info hlk => handle_all_targets cfg inp env info hlk⟩

/-- Witness for C2 at a concrete authorized request with an existing SKU. -/
theorem c2_witness :
    ((handle_airtable_webhook "s3cret!" inpAllPrices envAllOk).2.any isCreateProduct)
      = false
    ∧ ((handle_airtable_webhook "s3cret!" inpAllPrices envAllOk).2.all
        (targetsLookup infoW)) = true :=
  ⟨c2_amended_thm.1 "s3cret!" inpAllPrices envAllOk,
    c2_amended_thm.2 "s3cret!" inpAllPrices envAllOk infoW rfl⟩

/-- Counterexample to claim C2 as stated: re-running the create endpoint on a
record whose SKU already has a product still performs an unconditional
product-creation call and no find-by-SKU lookup whatsoever, so a duplicate
product is created rather than the existing one updated. -/
theorem c2_cex :
    ((create_shopify_item reqC cEnvOk).2.any isCreateProduct) = true
    ∧ ((create_shopify_item reqC cEnvOk).2.any isFindBySku) = false
    ∧ Effect.createProduct "Sauvage EDP" (.str "P100") "active"
      ∈ (create_shopify_item reqC cEnvOk).2 := by
  refine ⟨?_, ?_, ?_⟩ <;> decide
